import Mathlib

/-!
# Wellbore elasticity driver (`main.cpp`)

A shallow embedding of the simulation driver: `ReadGeometry`, `PrintGeometry`,
`DeformationMesh`, `Analysis`, the assemble / solve / residual loop of `main`
and `PostProcess`.

The finite element library the driver links against is not part of the
repository.  It is represented in two ways.

* Configuration calls (setters, constructors, registrations) are small stubs
  that store the value they are handed and append an entry to the call log of
  the object they are invoked on.  The order of the entries in a log is
  therefore the order of the calls in the translated driver code.
* Calls whose result is computed by the library (reading the mesh file,
  assembling, solving, the norm) are fields of a `Library` record, about which
  nothing is assumed.  Every theorem quantifies over all such records.

Library calls are taken to return normally; the driver contains no
`try`/`catch`, no status checks and no error path of its own.
-/

namespace PorousElasticity

/-! ## Scalars -/

/-- The scalar type `REAL` / `STATE` (a C++ `double`), as the value it denotes:
a rational number, one of the two infinities, or a NaN.  Literals stand for
the decimal number written in the source. -/
inductive REAL where
  | fin (q : ℚ)
  | posInf
  | negInf
  | nan
  deriving DecidableEq

namespace REAL

/-- Unary minus. -/
def neg : REAL → REAL
  | fin q => fin (-q)
  | posInf => negInf
  | negInf => posInf
  | nan => nan

/-- The product `x * y`.  Rounding is not represented; the driver only ever
multiplies by `1.0` and by `-1.0`, for which the product is exact. -/
def mul : REAL → REAL → REAL
  | nan, _ => nan
  | _, nan => nan
  | fin a, fin b => fin (a * b)
  | fin a, posInf => if a = 0 then nan else if 0 < a then posInf else negInf
  | fin a, negInf => if a = 0 then nan else if 0 < a then negInf else posInf
  | posInf, fin b => if b = 0 then nan else if 0 < b then posInf else negInf
  | negInf, fin b => if b = 0 then nan else if 0 < b then negInf else posInf
  | posInf, posInf => posInf
  | posInf, negInf => negInf
  | negInf, posInf => negInf
  | negInf, negInf => posInf

/-- The comparison `x < y` of C++: false as soon as one side is a NaN. -/
def lt : REAL → REAL → Bool
  | fin a, fin b => decide (a < b)
  | fin _, posInf => true
  | negInf, fin _ => true
  | negInf, posInf => true
  | _, _ => false

instance : Neg REAL := ⟨neg⟩
instance : Mul REAL := ⟨mul⟩

end REAL

/-- Conversion `int → unsigned int` (32 bits). -/
def toUnsigned (x : Int) : Nat := (x % 2 ^ 32).toNat

/-- Conversion `unsigned int → int` (32 bits, two's complement). -/
def toInt (u : Nat) : Int :=
  if u % 2 ^ 32 < 2 ^ 31 then ((u % 2 ^ 32 : Nat) : Int) else ((u % 2 ^ 32 : Nat) : Int) - 2 ^ 32

/-! ## Dense matrices -/

/-- A `TPZFMatrix<STATE>`: dimensions and the entries, stored column by column. -/
structure TPZFMatrix where
  fRow : Nat
  fCol : Nat
  fElem : List REAL
  deriving DecidableEq

namespace TPZFMatrix

/-- The constructor `TPZFMatrix<STATE> m(rows, cols, val)`. -/
def new (rows cols : Nat) (val : REAL) : TPZFMatrix :=
  { fRow := rows, fCol := cols, fElem := List.replicate (rows * cols) val }

/-- The assignment `m(row, col) = v`. -/
def put (m : TPZFMatrix) (row col : Nat) (v : REAL) : TPZFMatrix :=
  { m with fElem := m.fElem.set (col * m.fRow + row) v }

/-- The read access `m(row, col)`. -/
def get (m : TPZFMatrix) (row col : Nat) : REAL :=
  m.fElem.getD (col * m.fRow + row) REAL.nan

/-- The compound assignment `m *= c`: every entry is multiplied by `c`. -/
def timesAssign (m : TPZFMatrix) (c : REAL) : TPZFMatrix :=
  { m with fElem := m.fElem.map (fun x => x * c) }

/-- The entrywise negation of a matrix. -/
def negated (m : TPZFMatrix) : TPZFMatrix :=
  { m with fElem := m.fElem.map REAL.neg }

end TPZFMatrix

/-! ## Geometry -/

/-- A call made on a geometric mesh. -/
inductive GeoCall where
  | SetName (name : String)
  | Print (file : String)
  | PrintGMeshVTK (file : String) (matColor : Bool)
  deriving DecidableEq

/-- A `TPZGeoMesh`: nodes, elements (region tag and node indices), the
dimension reported by `Dimension()`, the name, and the calls made on it. -/
structure TPZGeoMesh where
  fName : String
  fDim : Int
  fNodeVec : List (List REAL)
  fElementVec : List (Int × List Nat)
  log : List GeoCall
  deriving DecidableEq

namespace TPZGeoMesh

/-- The getter `gmesh->Dimension()`. -/
def Dimension (g : TPZGeoMesh) : Int := g.fDim

/-- The call `gmesh->SetName(name)`. -/
def SetName (g : TPZGeoMesh) (name : String) : TPZGeoMesh :=
  { g with fName := name, log := g.log ++ [GeoCall.SetName name] }

/-- The call `gmesh->Print(file)` on a stream opened on `file`. -/
def Print (g : TPZGeoMesh) (file : String) : TPZGeoMesh :=
  { g with log := g.log ++ [GeoCall.Print file] }

/-- The call `TPZVTKGeoMesh::PrintGMeshVTK(gmesh, file, matColor)`. -/
def PrintGMeshVTK (g : TPZGeoMesh) (file : String) (matColor : Bool) : TPZGeoMesh :=
  { g with log := g.log ++ [GeoCall.PrintGMeshVTK file matColor] }

end TPZGeoMesh

/-- A `TPZGmshReader` with the characteristic length the driver sets on it. -/
structure TPZGmshReader where
  fDimensionlessL : Option REAL
  deriving DecidableEq

/-! ## Materials and boundary conditions -/

/-- The plane mode of a two dimensional elastic material. -/
inductive PlaneMode where
  | PlaneStress
  | PlaneStrain
  deriving DecidableEq

/-- A `TPZMatElasticity2D`.  A field is `none` until the driver sets it. -/
structure TPZMatElasticity2D where
  fId : Int
  fPlaneMode : Option PlaneMode
  fE : Option REAL
  fnu : Option REAL
  deriving DecidableEq

namespace TPZMatElasticity2D

/-- The constructor `new TPZMatElasticity2D(matid)`. -/
def new (matid : Int) : TPZMatElasticity2D :=
  { fId := matid, fPlaneMode := none, fE := none, fnu := none }

/-- The call `rock->SetPlaneStrain()`. -/
def SetPlaneStrain (m : TPZMatElasticity2D) : TPZMatElasticity2D :=
  { m with fPlaneMode := some PlaneMode.PlaneStrain }

/-- The call `rock->SetElasticity(Ey, nu)`. -/
def SetElasticity (m : TPZMatElasticity2D) (Ey nu : REAL) : TPZMatElasticity2D :=
  { m with fE := some Ey, fnu := some nu }

end TPZMatElasticity2D

/-- A `TPZBndCond`: the material it is attached to, its tag, its type code and
the two value matrices, held by value as they are when the condition is
created. -/
structure TPZBndCond where
  fMaterial : TPZMatElasticity2D
  fId : Int
  fType : Int
  fBCVal1 : TPZFMatrix
  fBCVal2 : TPZFMatrix
  deriving DecidableEq

/-- The call `rock->CreateBC(reference, id, typ, val1, val2)`. -/
def TPZMatElasticity2D.CreateBC (_self reference : TPZMatElasticity2D) (id typ : Int)
    (val1 val2 : TPZFMatrix) : TPZBndCond :=
  { fMaterial := reference, fId := id, fType := typ, fBCVal1 := val1, fBCVal2 := val2 }

/-- What `InsertMaterialObject` accepts: a material or a boundary condition. -/
inductive TPZMaterial where
  | elasticity (m : TPZMatElasticity2D)
  | bndCond (bc : TPZBndCond)
  deriving DecidableEq

/-- The tag `Id()` of a registered entity. -/
def TPZMaterial.Id : TPZMaterial → Int
  | elasticity m => m.fId
  | bndCond bc => bc.fId

/-! ## Computational mesh -/

/-- A call made on a computational mesh. -/
inductive CMeshCall where
  | SetName (name : String)
  | SetDefaultOrder (order : Int)
  | SetDimModel (dim : Int)
  | InsertMaterialObject (mat : TPZMaterial)
  | SetAllCreateFunctionsContinuous
  | AutoBuild
  deriving DecidableEq

/-- A `TPZCompMesh`: the geometry it refers to, the model dimension returned by
`Dimension()`, the registered entities in registration order, and the calls
made on it. -/
structure TPZCompMesh where
  fReference : TPZGeoMesh
  fDimModel : Int
  fMaterialVec : List TPZMaterial
  log : List CMeshCall
  deriving DecidableEq

namespace TPZCompMesh

/-- The constructor `new TPZCompMesh(gmesh)`.  The initial model dimension is
never read: the driver sets it before any use of the mesh. -/
def new (gmesh : TPZGeoMesh) : TPZCompMesh :=
  { fReference := gmesh, fDimModel := 0, fMaterialVec := [], log := [] }

/-- The call `cmesh->SetName(name)`. -/
def SetName (c : TPZCompMesh) (name : String) : TPZCompMesh :=
  { c with log := c.log ++ [CMeshCall.SetName name] }

/-- The call `cmesh->SetDefaultOrder(order)`. -/
def SetDefaultOrder (c : TPZCompMesh) (order : Int) : TPZCompMesh :=
  { c with log := c.log ++ [CMeshCall.SetDefaultOrder order] }

/-- The call `cmesh->SetDimModel(dim)`. -/
def SetDimModel (c : TPZCompMesh) (dim : Int) : TPZCompMesh :=
  { c with fDimModel := dim, log := c.log ++ [CMeshCall.SetDimModel dim] }

/-- The call `cmesh->InsertMaterialObject(mat)`. -/
def InsertMaterialObject (c : TPZCompMesh) (mat : TPZMaterial) : TPZCompMesh :=
  { c with fMaterialVec := c.fMaterialVec ++ [mat],
           log := c.log ++ [CMeshCall.InsertMaterialObject mat] }

/-- The call `cmesh->SetAllCreateFunctionsContinuous()`. -/
def SetAllCreateFunctionsContinuous (c : TPZCompMesh) : TPZCompMesh :=
  { c with log := c.log ++ [CMeshCall.SetAllCreateFunctionsContinuous] }

/-- The call `cmesh->AutoBuild()`. -/
def AutoBuild (c : TPZCompMesh) : TPZCompMesh :=
  { c with log := c.log ++ [CMeshCall.AutoBuild] }

/-- The getter `cmesh->Dimension()`. -/
def Dimension (c : TPZCompMesh) : Int := c.fDimModel

end TPZCompMesh

/-- The function `DeformationMesh` of the source (lines 86 to 146). -/
def DeformationMesh (gmesh : TPZGeoMesh) (p_order : Int) : TPZCompMesh :=
  let dim : Nat := toUnsigned gmesh.Dimension
  let name : String := "Porous Elasticity on wellbore "
  let to_MPa : REAL := REAL.fin 1
  -- Setting up attributes
  let cmesh := TPZCompMesh.new gmesh
  let cmesh := cmesh.SetName name
  let cmesh := cmesh.SetDefaultOrder p_order
  let cmesh := cmesh.SetDimModel (toInt dim)
  -- linear elasticity
  let rock_id : Nat := 1
  let rock := TPZMatElasticity2D.new (toInt rock_id)
  let Ey : REAL := REAL.fin 29269 * to_MPa
  let nu : REAL := REAL.fin (203 / 1000)
  let rock := rock.SetPlaneStrain
  let rock := rock.SetElasticity Ey nu
  let bc_i_id : Nat := 2
  let bc_index : Nat := 5
  let val1 := TPZFMatrix.new 2 2 (REAL.fin 0)
  let val2 := TPZFMatrix.new 2 1 (REAL.fin 0)
  let val2 := val2.put 0 0 (-(REAL.fin 10) * to_MPa)
  let bc_i := rock.CreateBC rock (toInt bc_i_id) (toInt bc_index) val1 val2
  let bc_e_id : Nat := 3
  let bc_index : Nat := 5
  let val2 := val2.put 0 0 (REAL.fin 0 * to_MPa)
  let bc_e := rock.CreateBC rock (toInt bc_e_id) (toInt bc_index) val1 val2
  let bc_id : Nat := 4
  let bc_index : Nat := 7
  let val2 := val2.put 0 0 (REAL.fin 0)
  let bc_ux_fixed := rock.CreateBC rock (toInt bc_id) (toInt bc_index) val1 val2
  let bc_id : Nat := 5
  let bc_index : Nat := 8
  let val2 := val2.put 0 0 (REAL.fin 0)
  let bc_uy_fixed := rock.CreateBC rock (toInt bc_id) (toInt bc_index) val1 val2
  let cmesh := cmesh.InsertMaterialObject (TPZMaterial.elasticity rock)
  let cmesh := cmesh.InsertMaterialObject (TPZMaterial.bndCond bc_i)
  let cmesh := cmesh.InsertMaterialObject (TPZMaterial.bndCond bc_e)
  let cmesh := cmesh.InsertMaterialObject (TPZMaterial.bndCond bc_ux_fixed)
  let cmesh := cmesh.InsertMaterialObject (TPZMaterial.bndCond bc_uy_fixed)
  let cmesh := cmesh.SetAllCreateFunctionsContinuous
  let cmesh := cmesh.AutoBuild
  cmesh

/-! ## Analysis -/

/-- The decomposition selected on a direct solver. -/
inductive DecomposeType where
  | ELDLt
  deriving DecidableEq

/-- A `TPZStepSolver<STATE>` with the decomposition set on it. -/
structure TPZStepSolver where
  fDecompose : Option DecomposeType
  deriving DecidableEq

/-- The call `step.SetDirect(decomp)`. -/
def TPZStepSolver.SetDirect (s : TPZStepSolver) (decomp : DecomposeType) : TPZStepSolver :=
  { s with fDecompose := some decomp }

/-- A `TPZSkylineStructMatrix` built on a mesh, with its thread count. -/
structure TPZSkylineStructMatrix where
  fMesh : TPZCompMesh
  fNumThreads : Option Int
  deriving DecidableEq

/-- The call `matrix.SetNumThreads(n)`. -/
def TPZSkylineStructMatrix.SetNumThreads (m : TPZSkylineStructMatrix) (n : Int) :
    TPZSkylineStructMatrix :=
  { m with fNumThreads := some n }

/-- What `DefineGraphMesh` is handed. -/
structure GraphMeshDef where
  dim : Int
  scalnames : List String
  vecnames : List String
  plotfile : String
  deriving DecidableEq

/-- A call made on the analysis object.  `Assemble` and `AssembleResidual`
carry the right-hand side the call left behind, `Solve` the right-hand side it
was invoked with, `NormRhs` the vector read through `Rhs()` and the norm the
library returned for it. -/
inductive AnCall where
  | New (optimizeBandwidth : Bool)
  | SetStructuralMatrix (matrix : TPZSkylineStructMatrix)
  | SetSolver (step : TPZStepSolver)
  | Assemble (rhsAfter : TPZFMatrix)
  | RhsTimesAssign (factor : REAL)
  | Solve (rhsBefore : TPZFMatrix)
  | AssembleResidual (rhsAfter : TPZFMatrix)
  | NormRhs (rhs : TPZFMatrix) (norm : REAL)
  | DefineGraphMesh (g : GraphMeshDef)
  | PostProcess (resolution : Int)
  deriving DecidableEq

/-- A `TPZAnalysis`: the mesh returned by `Mesh()`, the right-hand side
returned by `Rhs()`, the solution, the configuration set by the driver, and the
calls made on it. -/
structure TPZAnalysis where
  fCompMesh : TPZCompMesh
  fRhs : TPZFMatrix
  fSolution : TPZFMatrix
  fStructMatrix : Option TPZSkylineStructMatrix
  fSolver : Option TPZStepSolver
  fGraphMesh : Option GraphMeshDef
  log : List AnCall
  deriving DecidableEq

/-- The calls whose result is computed inside the finite element library.
Each one may depend on the whole object it is given and may return any
value. -/
structure Library where
  /-- The call `Geometry.GeometricGmshMesh(grid)`: the mesh read from a file. -/
  GeometricGmshMesh : TPZGmshReader → String → TPZGeoMesh
  /-- The constructor `new TPZAnalysis(cmesh, flag)`: the freshly built analysis. -/
  NewAnalysis : TPZCompMesh → Bool → TPZAnalysis
  /-- The call `analysis->Assemble()`. -/
  Assemble : TPZAnalysis → TPZAnalysis
  /-- The call `analysis->Solve()`. -/
  Solve : TPZAnalysis → TPZAnalysis
  /-- The call `analysis->AssembleResidual()`. -/
  AssembleResidual : TPZAnalysis → TPZAnalysis
  /-- The call `Norm(matrix)`. -/
  Norm : TPZFMatrix → REAL

namespace TPZAnalysis

/-- The constructor `new TPZAnalysis(cmesh, flag)`. -/
def new (L : Library) (cmesh : TPZCompMesh) (flag : Bool) : TPZAnalysis :=
  { L.NewAnalysis cmesh flag with log := [AnCall.New flag] }

/-- The call `analysis->SetStructuralMatrix(matrix)`. -/
def SetStructuralMatrix (an : TPZAnalysis) (matrix : TPZSkylineStructMatrix) : TPZAnalysis :=
  { an with fStructMatrix := some matrix, log := an.log ++ [AnCall.SetStructuralMatrix matrix] }

/-- The call `analysis->SetSolver(step)`. -/
def SetSolver (an : TPZAnalysis) (step : TPZStepSolver) : TPZAnalysis :=
  { an with fSolver := some step, log := an.log ++ [AnCall.SetSolver step] }

/-- The call `analysis->Assemble()`. -/
def Assemble (L : Library) (an : TPZAnalysis) : TPZAnalysis :=
  let r := L.Assemble an
  { r with log := an.log ++ [AnCall.Assemble r.fRhs] }

/-- The statement `analysis->Rhs() *= factor`. -/
def RhsTimesAssign (an : TPZAnalysis) (factor : REAL) : TPZAnalysis :=
  { an with fRhs := an.fRhs.timesAssign factor, log := an.log ++ [AnCall.RhsTimesAssign factor] }

/-- The call `analysis->Solve()`. -/
def Solve (L : Library) (an : TPZAnalysis) : TPZAnalysis :=
  let r := L.Solve an
  { r with log := an.log ++ [AnCall.Solve an.fRhs] }

/-- The call `analysis->AssembleResidual()`. -/
def AssembleResidual (L : Library) (an : TPZAnalysis) : TPZAnalysis :=
  let r := L.AssembleResidual an
  { r with log := an.log ++ [AnCall.AssembleResidual r.fRhs] }

/-- The expression `Norm(analysis->Rhs())`: the norm and the analysis with
the read recorded. -/
def NormRhs (L : Library) (an : TPZAnalysis) : REAL × TPZAnalysis :=
  let norm := L.Norm an.fRhs
  (norm, { an with log := an.log ++ [AnCall.NormRhs an.fRhs norm] })

/-- The getter `an->Mesh()`. -/
def Mesh (an : TPZAnalysis) : TPZCompMesh := an.fCompMesh

/-- The call `an->DefineGraphMesh(dim, scalnames, vecnames, plotfile)`. -/
def DefineGraphMesh (an : TPZAnalysis) (dim : Int) (scalnames vecnames : List String)
    (plotfile : String) : TPZAnalysis :=
  let g : GraphMeshDef :=
    { dim := dim, scalnames := scalnames, vecnames := vecnames, plotfile := plotfile }
  { an with fGraphMesh := some g, log := an.log ++ [AnCall.DefineGraphMesh g] }

/-- The call `an->PostProcess(resolution)`. -/
def PostProcess (an : TPZAnalysis) (resolution : Int) : TPZAnalysis :=
  { an with log := an.log ++ [AnCall.PostProcess resolution] }

end TPZAnalysis

/-- The method `TPZStack::Push`. -/
def TPZStack.Push (s : List String) (x : String) : List String := s ++ [x]

/-! ## The driver -/

/-- The function `ReadGeometry` of the source (lines 60 to 73). -/
def ReadGeometry (L : Library) : TPZGeoMesh :=
  let grid : String := "Wellbore.msh"
  let Geometry : TPZGmshReader := { fDimensionlessL := none }
  let s : REAL := REAL.fin 1
  let Geometry : TPZGmshReader := { Geometry with fDimensionlessL := some s }
  let gmesh := L.GeometricGmshMesh Geometry grid
  let name : String := "Wellbore section"
  let gmesh := gmesh.SetName name
  gmesh

/-- The function `PrintGeometry` of the source (lines 75 to 84). -/
def PrintGeometry (gmesh : TPZGeoMesh) : TPZGeoMesh :=
  let text_name : String := "geometry" ++ ".txt"
  let vtk_name : String := "geometry" ++ ".vtk"
  let gmesh := gmesh.Print text_name
  let gmesh := gmesh.PrintGMeshVTK vtk_name true
  gmesh

/-- The function `Analysis` of the source (lines 148 to 160). -/
def Analysis (L : Library) (cmesh : TPZCompMesh) : TPZAnalysis :=
  let numofThreads : Int := 0
  let analysis := TPZAnalysis.new L cmesh true
  let matrix : TPZSkylineStructMatrix := { fMesh := cmesh, fNumThreads := none }
  let step : TPZStepSolver := { fDecompose := none }
  let step := step.SetDirect DecomposeType.ELDLt
  let matrix := matrix.SetNumThreads numofThreads
  let analysis := analysis.SetStructuralMatrix matrix
  let analysis := analysis.SetSolver step
  analysis

/-- The function `PostProcess` of the source (lines 162 to 175). -/
def PostProcess (an : TPZAnalysis) : TPZAnalysis :=
  let dim : Int := an.Mesh.Dimension
  let div : Int := 0
  let scalnames : List String := []
  let vecnames : List String := []
  let plotfile : String := "Wellbore.vtk"
  let scalnames := TPZStack.Push scalnames "SigmaX"
  let scalnames := TPZStack.Push scalnames "SigmaY"
  let scalnames := TPZStack.Push scalnames "SigmaZ"
  let vecnames := TPZStack.Push vecnames "Displacement"
  let an := an.DefineGraphMesh dim scalnames vecnames plotfile
  let an := an.PostProcess div
  an

/-- One item written to `std::cout`. -/
inductive Out where
  | str (s : String)
  | real (x : REAL)
  | endl
  deriving DecidableEq

/-- The variables the solver loop of `main` changes. -/
structure LoopState where
  analysis : TPZAnalysis
  stop_criterion_Q : Bool
  cout : List Out

/-- The `for` loop of `main` (lines 42 to 53), from the loop test with counter
value `i`.  The counter never overflows: it is incremented only while it is
below `n_it`. -/
def solverLoop (L : Library) (tol : REAL) (n_it : Int) (i : Int) (st : LoopState) : LoopState :=
  if i < n_it then
    let analysis := st.analysis.Assemble L
    let analysis := analysis.RhsTimesAssign (-(REAL.fin 1))
    let analysis := analysis.Solve L
    let analysis := analysis.AssembleResidual L
    let (norm_res, analysis) := analysis.NormRhs L
    let stop_criterion_Q := REAL.lt norm_res tol
    if stop_criterion_Q then
      { analysis := analysis, stop_criterion_Q := stop_criterion_Q,
        cout := st.cout ++ [Out.str "Nonlinear process converged with residue norm = ",
                            Out.real norm_res, Out.endl] }
    else
      solverLoop L tol n_it (i + 1)
        { analysis := analysis, stop_criterion_Q := stop_criterion_Q, cout := st.cout }
  else st
termination_by (n_it - i).toNat
decreasing_by omega

/-- What a run of `main` leaves behind: the exit status, the text written to
`std::cout`, the analysis object and the final value of `stop_criterion_Q`. -/
structure MainResult where
  exitStatus : Int
  cout : List Out
  analysis : TPZAnalysis
  stop_criterion_Q : Bool

/-- The function `main` of the source (lines 30 to 58), with the tolerance and
the iteration budget of lines 39 and 40 as arguments. -/
def mainWith (L : Library) (tol : REAL) (n_it : Int) : MainResult :=
  let p_order : Int := 2
  let gmesh := ReadGeometry L
  let gmesh := PrintGeometry gmesh
  let cmesh := DeformationMesh gmesh p_order
  let analysis := Analysis L cmesh
  let stop_criterion_Q : Bool := false
  let st := solverLoop L tol n_it 0
    { analysis := analysis, stop_criterion_Q := stop_criterion_Q, cout := [] }
  let analysis := PostProcess st.analysis
  let cout := st.cout ++ [Out.str "Execution complete.", Out.endl]
  { exitStatus := 0, cout := cout, analysis := analysis, stop_criterion_Q := st.stop_criterion_Q }

/-- The function `main` of the source: `tol = 0.01` and `n_it = 1`. -/
def main (L : Library) : MainResult :=
  let tol : REAL := REAL.fin (1 / 100)
  let n_it : Int := 1
  mainWith L tol n_it

/-! ## Observations on logs and runs

Functions that read a call log or name a part of a run, used to state the
theorems below. -/

/-- The entities handed to `InsertMaterialObject`, in call order. -/
def insertedObjects : List CMeshCall → List TPZMaterial
  | [] => []
  | CMeshCall.InsertMaterialObject m :: rest => m :: insertedObjects rest
  | _ :: rest => insertedObjects rest

/-- One pass through the loop body up to the norm: `Assemble`, the sign
change of the right-hand side, `Solve`, `AssembleResidual` and
`Norm(analysis->Rhs())`.  Returns the norm and the analysis left behind. -/
def loopCycle (L : Library) (an : TPZAnalysis) : REAL × TPZAnalysis :=
  ((((an.Assemble L).RhsTimesAssign (-(REAL.fin 1))).Solve L).AssembleResidual L).NormRhs L

/-- The analysis after `k` passes through the loop body, none of which broke
out of the loop. -/
def stateAfter (L : Library) (a0 : TPZAnalysis) : Nat → TPZAnalysis
  | 0 => a0
  | k + 1 => (loopCycle L (stateAfter L a0 k)).2

/-- The residual norm `r_k` the library returns in pass `k` (counted from 1)
when the loop starts on `a0`. -/
def residualNorm (L : Library) (a0 : TPZAnalysis) (k : Nat) : REAL :=
  (loopCycle L (stateAfter L a0 (k - 1))).1

/-- The text written when the loop converges with residual norm `r`. -/
def convergedLine (r : REAL) : List Out :=
  [Out.str "Nonlinear process converged with residue norm = ", Out.real r, Out.endl]

/-- The log entries of one cycle in which `Assemble` leaves the load vector
`b` and `AssembleResidual` leaves the residual `r`: the solver is invoked on the
entrywise negation of `b`, and the norm is taken of `r`. -/
def cycleEntries (L : Library) (b r : TPZFMatrix) : List AnCall :=
  [AnCall.Assemble b, AnCall.RhsTimesAssign (-(REAL.fin 1)), AnCall.Solve b.negated,
   AnCall.AssembleResidual r, AnCall.NormRhs r (L.Norm r)]

/-- The load vector `Assemble` leaves in pass `k + 1`. -/
def loadVector (L : Library) (a0 : TPZAnalysis) (k : Nat) : TPZFMatrix :=
  ((stateAfter L a0 k).Assemble L).fRhs

/-- The residual `AssembleResidual` leaves in pass `k + 1`. -/
def residualVector (L : Library) (a0 : TPZAnalysis) (k : Nat) : TPZFMatrix :=
  (stateAfter L a0 (k + 1)).fRhs

/-- The log entries of the first `k` cycles of the loop started on `a0`. -/
def cyclesLog (L : Library) (a0 : TPZAnalysis) : Nat → List AnCall
  | 0 => []
  | k + 1 => cyclesLog L a0 k ++ cycleEntries L (loadVector L a0 k) (residualVector L a0 k)

/-- Recognises an `Assemble` entry. -/
def AnCall.isAssemble : AnCall → Bool
  | AnCall.Assemble _ => true
  | _ => false

/-- Recognises an entry of the statement `analysis->Rhs() *= factor`. -/
def AnCall.isRhsTimesAssign : AnCall → Bool
  | AnCall.RhsTimesAssign _ => true
  | _ => false

/-- Recognises a `Solve` entry. -/
def AnCall.isSolve : AnCall → Bool
  | AnCall.Solve _ => true
  | _ => false

/-- Recognises an `AssembleResidual` entry. -/
def AnCall.isAssembleResidual : AnCall → Bool
  | AnCall.AssembleResidual _ => true
  | _ => false

/-- Recognises a `PostProcess` entry. -/
def AnCall.isPostProcess : AnCall → Bool
  | AnCall.PostProcess _ => true
  | _ => false

/-- The norm of the last `NormRhs` entry of a log, if there is one. -/
def lastNorm : List AnCall → Option REAL
  | [] => none
  | c :: rest =>
    match lastNorm rest with
    | some r => some r
    | none =>
      match c with
      | AnCall.NormRhs _ r => some r
      | _ => none

/-- The analysis object on which the loop of `main` starts (lines 32 to 37). -/
def mainAnalysis (L : Library) : TPZAnalysis :=
  Analysis L (DeformationMesh (PrintGeometry (ReadGeometry L)) 2)

/-- The tolerance of `main` (line 39). -/
def mainTol : REAL := REAL.fin (1 / 100)

/-- The last line `main` writes. -/
def completeLine : List Out := [Out.str "Execution complete.", Out.endl]

/-- The log entries `PostProcess` adds when the mesh dimension is `dim`. -/
def postProcessEntries (dim : Int) : List AnCall :=
  [AnCall.DefineGraphMesh
     { dim := dim, scalnames := ["SigmaX", "SigmaY", "SigmaZ"], vecnames := ["Displacement"],
       plotfile := "Wellbore.vtk" },
   AnCall.PostProcess 0]

/-- The log entries of `after` that follow the entries of `before`. -/
def newEntries (before after : List AnCall) : List AnCall := after.drop before.length

/-- A small geometry for concrete runs: no nodes, no elements, dimension 2. -/
def sampleGeoMesh : TPZGeoMesh :=
  { fName := "", fDim := 2, fNodeVec := [], fElementVec := [], log := [] }

/-- A stand-in library for concrete runs: the mesh file holds `sampleGeoMesh`,
the numerical calls leave the analysis as it is, and every norm is `r`. -/
def fixedNormLibrary (r : REAL) : Library :=
  { GeometricGmshMesh := fun _ _ => sampleGeoMesh,
    NewAnalysis := fun cmesh _ =>
      { fCompMesh := cmesh, fRhs := TPZFMatrix.new 0 1 (REAL.fin 0),
        fSolution := TPZFMatrix.new 0 1 (REAL.fin 0), fStructMatrix := none, fSolver := none,
        fGraphMesh := none, log := [] },
    Assemble := fun an => an,
    Solve := fun an => an,
    AssembleResidual := fun an => an,
    Norm := fun _ => r }

/-- Recognises an `AutoBuild` entry. -/
def CMeshCall.isAutoBuild : CMeshCall → Bool
  | CMeshCall.AutoBuild => true
  | _ => false

/-- Recognises an `InsertMaterialObject` entry. -/
def CMeshCall.isInsert : CMeshCall → Bool
  | CMeshCall.InsertMaterialObject _ => true
  | _ => false

/-- Recognises a material law. -/
def TPZMaterial.isElasticity : TPZMaterial → Bool
  | TPZMaterial.elasticity _ => true
  | _ => false

/-- Recognises a boundary condition. -/
def TPZMaterial.isBndCond : TPZMaterial → Bool
  | TPZMaterial.bndCond _ => true
  | _ => false

/-- The errors the contract of the mesh builder names. -/
inductive BuildError where
  | UnresolvedTagError
  | InvalidOrderError
  deriving DecidableEq

/-- The result of `DeformationMesh` in the terms of the builder contract, a
mesh or an error.  The source function contains no test of `p_order`, no
`throw` and no early `return`: every call reaches `return cmesh`. -/
def DeformationMesh_outcome (gmesh : TPZGeoMesh) (p_order : Int) : Except BuildError TPZCompMesh :=
  Except.ok (DeformationMesh gmesh p_order)

/-- The error of the registration contract. -/
inductive RegistryError where
  | DuplicateRegionError
  deriving DecidableEq

/-- Modelled from the spec: the checked registration of `RegisterMaterial` and
`RegisterBoundaryCondition`, which the repository does not contain.
Registering a tag that is already present is `DuplicateRegionError`. -/
def registerChecked (registry : List TPZMaterial) (m : TPZMaterial) :
    Except RegistryError (List TPZMaterial) :=
  if registry.any (fun x => decide (x.Id = m.Id)) then Except.error RegistryError.DuplicateRegionError
  else Except.ok (registry ++ [m])

/-- Modelled from the spec: checked registration of a sequence of entities,
one after the other, stopping at the first error. -/
def registerAllChecked (registry : List TPZMaterial) :
    List TPZMaterial → Except RegistryError (List TPZMaterial)
  | [] => Except.ok registry
  | m :: rest =>
    match registerChecked registry m with
    | Except.error e => Except.error e
    | Except.ok registry2 => registerAllChecked registry2 rest

/-- A stand-in library that returns a prescribed sequence of residual norms:
`AssembleResidual` counts the passes in the row count of the right-hand side,
and `Norm` reads the sequence `s` at that count. -/
def sequenceLibrary (s : Nat → REAL) : Library :=
  { GeometricGmshMesh := fun _ _ => sampleGeoMesh,
    NewAnalysis := fun cmesh _ =>
      { fCompMesh := cmesh, fRhs := TPZFMatrix.new 0 1 (REAL.fin 0),
        fSolution := TPZFMatrix.new 0 1 (REAL.fin 0), fStructMatrix := none, fSolver := none,
        fGraphMesh := none, log := [] },
    Assemble := fun an => an,
    Solve := fun an => an,
    AssembleResidual := fun an => { an with fRhs := { an.fRhs with fRow := an.fRhs.fRow + 1 } },
    Norm := fun m => s m.fRow }

/-- A stand-in library with a visible load vector: `Assemble` leaves the
right-hand side `(3)`, `AssembleResidual` leaves `(0)`, and every norm is 0. -/
def loadLibrary : Library :=
  { GeometricGmshMesh := fun _ _ => sampleGeoMesh,
    NewAnalysis := fun cmesh _ =>
      { fCompMesh := cmesh, fRhs := TPZFMatrix.new 1 1 (REAL.fin 0),
        fSolution := TPZFMatrix.new 1 1 (REAL.fin 0), fStructMatrix := none, fSolver := none,
        fGraphMesh := none, log := [] },
    Assemble := fun an => { an with fRhs := { fRow := 1, fCol := 1, fElem := [REAL.fin 3] } },
    Solve := fun an => an,
    AssembleResidual := fun an =>
      { an with fRhs := { fRow := 1, fCol := 1, fElem := [REAL.fin 0] } },
    Norm := fun _ => REAL.fin 0 }

/-! ## Lemmas -/

theorem REAL.mul_def (x y : REAL) : x * y = REAL.mul x y := rfl

theorem REAL.neg_def (x : REAL) : -x = REAL.neg x := rfl

theorem REAL.mul_one (x : REAL) : x * REAL.fin 1 = x := by
  cases x <;> simp [REAL.mul_def, REAL.mul]

theorem REAL.mul_negOne (x : REAL) : x * (-(REAL.fin 1)) = REAL.neg x := by
  cases x <;> simp [REAL.mul_def, REAL.neg_def, REAL.mul, REAL.neg]

theorem TPZFMatrix.timesAssign_negOne (m : TPZFMatrix) :
    m.timesAssign (-(REAL.fin 1)) = m.negated := by
  simp only [TPZFMatrix.timesAssign, TPZFMatrix.negated, REAL.mul_negOne]

theorem solverLoop_step (L : Library) (tol : REAL) (n_it i : Int) (st : LoopState) :
    solverLoop L tol n_it i st =
      if i < n_it then
        if REAL.lt (loopCycle L st.analysis).1 tol = true then
          { analysis := (loopCycle L st.analysis).2, stop_criterion_Q := true,
            cout := st.cout ++ convergedLine (loopCycle L st.analysis).1 }
        else
          solverLoop L tol n_it (i + 1)
            { analysis := (loopCycle L st.analysis).2, stop_criterion_Q := false,
              cout := st.cout }
      else st := by
  rw [solverLoop]
  by_cases h : i < n_it
  · simp only [h, if_true]
    by_cases hc : REAL.lt (loopCycle L st.analysis).1 tol = true
    · simp only [hc, if_true]
      simp [loopCycle, TPZAnalysis.NormRhs, convergedLine] at hc ⊢
      simp [hc]
    · simp only [hc, if_false]
      simp [loopCycle, TPZAnalysis.NormRhs] at hc ⊢
      simp [hc]
  · simp [h]

theorem stateAfter_shift (L : Library) (a0 : TPZAnalysis) (k : Nat) :
    stateAfter L (loopCycle L a0).2 k = stateAfter L a0 (k + 1) := by
  induction k with
  | zero => rfl
  | succ k ih => simp only [stateAfter] at ih ⊢; rw [ih]

theorem residualNorm_shift (L : Library) (a0 : TPZAnalysis) (k : Nat) (hk : 1 ≤ k) :
    residualNorm L (loopCycle L a0).2 k = residualNorm L a0 (k + 1) := by
  obtain ⟨j, rfl⟩ : ∃ j, k = j + 1 := ⟨k - 1, by omega⟩
  simp only [residualNorm, Nat.add_sub_cancel]
  rw [stateAfter_shift]

theorem solverLoop_run (L : Library) (tol : REAL) (n_it : Int) :
    ∀ (m : Nat) (i : Int) (st : LoopState), (n_it - i).toNat = m →
      (∃ k : Nat, 1 ≤ k ∧ i + (k : Int) ≤ n_it ∧
          REAL.lt (residualNorm L st.analysis k) tol = true ∧
          (∀ j : Nat, 1 ≤ j → j < k → REAL.lt (residualNorm L st.analysis j) tol = false) ∧
          solverLoop L tol n_it i st =
            { analysis := stateAfter L st.analysis k, stop_criterion_Q := true,
              cout := st.cout ++ convergedLine (residualNorm L st.analysis k) })
      ∨ ((∀ j : Nat, 1 ≤ j → i + (j : Int) ≤ n_it →
            REAL.lt (residualNorm L st.analysis j) tol = false) ∧
          solverLoop L tol n_it i st =
            if i < n_it then
              { analysis := stateAfter L st.analysis (n_it - i).toNat,
                stop_criterion_Q := false, cout := st.cout }
            else st) := by
  intro m
  induction m with
  | zero =>
    intro i st hm
    have hi : ¬ i < n_it := by omega
    right
    refine ⟨fun j hj hle => by omega, ?_⟩
    rw [solverLoop_step]
    simp [hi]
  | succ m ih =>
    intro i st hm
    have hi : i < n_it := by omega
    rw [solverLoop_step]
    simp only [hi, if_true]
    by_cases hc : REAL.lt (loopCycle L st.analysis).1 tol = true
    · left
      refine ⟨1, le_refl 1, by omega, ?_, fun j h1 h2 => by omega, ?_⟩
      · simpa [residualNorm, stateAfter] using hc
      · simp [hc, residualNorm, stateAfter]
    · rw [if_neg hc]
      have hc1 : REAL.lt (residualNorm L st.analysis 1) tol = false := by
        simpa [residualNorm, stateAfter] using hc
      have hm1 : (n_it - (i + 1)).toNat = m := by omega
      rcases ih (i + 1)
          { analysis := (loopCycle L st.analysis).2, stop_criterion_Q := false,
            cout := st.cout } hm1 with ⟨k, hk1, hkn, hlt, hmin, hres⟩ | ⟨hall, hres⟩
      · left
        refine ⟨k + 1, by omega, by push_cast; omega, ?_, ?_, ?_⟩
        · rw [← residualNorm_shift L st.analysis k hk1]; exact hlt
        · intro j hj1 hjk
          by_cases hj : j = 1
          · subst hj; exact hc1
          · obtain ⟨j0, rfl⟩ : ∃ j0, j = j0 + 1 := ⟨j - 1, by omega⟩
            rw [← residualNorm_shift L st.analysis j0 (by omega)]
            exact hmin j0 (by omega) (by omega)
        · rw [hres, ← residualNorm_shift L st.analysis k hk1, ← stateAfter_shift]
      · right
        refine ⟨?_, ?_⟩
        · intro j hj1 hjn
          by_cases hj : j = 1
          · subst hj; exact hc1
          · obtain ⟨j0, rfl⟩ : ∃ j0, j = j0 + 1 := ⟨j - 1, by omega⟩
            rw [← residualNorm_shift L st.analysis j0 (by omega)]
            exact hall j0 (by omega) (by push_cast at hjn; omega)
        · rw [hres]
          by_cases hlast : i + 1 < n_it
          · simp only [hlast, if_true]
            have : (n_it - i).toNat = (n_it - (i + 1)).toNat + 1 := by omega
            rw [this, ← stateAfter_shift]
          · simp only [hlast, if_false]
            have : (n_it - i).toNat = 1 := by omega
            rw [this]
            rfl

theorem loopCycle_log (L : Library) (an : TPZAnalysis) :
    (loopCycle L an).2.log =
      an.log ++ cycleEntries L (an.Assemble L).fRhs (loopCycle L an).2.fRhs := by
  simp [loopCycle, cycleEntries, TPZAnalysis.NormRhs, TPZAnalysis.AssembleResidual,
    TPZAnalysis.Solve, TPZAnalysis.RhsTimesAssign, TPZAnalysis.Assemble,
    TPZFMatrix.timesAssign_negOne]

theorem stateAfter_log (L : Library) (a0 : TPZAnalysis) (k : Nat) :
    (stateAfter L a0 k).log = a0.log ++ cyclesLog L a0 k := by
  induction k with
  | zero => simp [stateAfter, cyclesLog]
  | succ k ih =>
    simp only [stateAfter, cyclesLog, loopCycle_log, ih, loadVector, residualVector,
      List.append_assoc]

theorem residualNorm_eq (L : Library) (a0 : TPZAnalysis) (k : Nat) :
    residualNorm L a0 (k + 1) = L.Norm (residualVector L a0 k) := rfl

theorem cyclesLog_counts (L : Library) (a0 : TPZAnalysis) (k : Nat) :
    (cyclesLog L a0 k).countP AnCall.isAssemble = k ∧
    (cyclesLog L a0 k).countP AnCall.isSolve = k ∧
    (cyclesLog L a0 k).countP AnCall.isAssembleResidual = k ∧
    (cyclesLog L a0 k).countP AnCall.isPostProcess = 0 := by
  induction k with
  | zero => simp [cyclesLog]
  | succ k ih =>
    obtain ⟨h1, h2, h3, h4⟩ := ih
    simp [cyclesLog, cycleEntries, List.countP_append, List.countP_cons, h1, h2, h3, h4,
      AnCall.isAssemble, AnCall.isSolve, AnCall.isAssembleResidual, AnCall.isPostProcess]

theorem lastNorm_append_cycle (L : Library) (l : List AnCall) (b r : TPZFMatrix) :
    lastNorm (l ++ cycleEntries L b r) = some (L.Norm r) := by
  induction l with
  | nil => simp [cycleEntries, lastNorm]
  | cons c l ih => simp [lastNorm, ih]

theorem mainWith_eq (L : Library) (tol : REAL) (n_it : Int) :
    mainWith L tol n_it =
      { exitStatus := 0,
        cout := (solverLoop L tol n_it 0
          { analysis := mainAnalysis L, stop_criterion_Q := false, cout := [] }).cout
            ++ completeLine,
        analysis := PostProcess (solverLoop L tol n_it 0
          { analysis := mainAnalysis L, stop_criterion_Q := false, cout := [] }).analysis,
        stop_criterion_Q := (solverLoop L tol n_it 0
          { analysis := mainAnalysis L, stop_criterion_Q := false, cout := [] }).stop_criterion_Q } :=
  rfl

theorem main_eq (L : Library) : main L = mainWith L mainTol 1 := rfl

theorem solverLoop_once (L : Library) (tol : REAL) (st : LoopState) :
    solverLoop L tol 1 0 st =
      if REAL.lt (loopCycle L st.analysis).1 tol = true then
        { analysis := (loopCycle L st.analysis).2, stop_criterion_Q := true,
          cout := st.cout ++ convergedLine (loopCycle L st.analysis).1 }
      else
        { analysis := (loopCycle L st.analysis).2, stop_criterion_Q := false,
          cout := st.cout } := by
  rw [solverLoop_step]
  simp only [Int.zero_lt_one, if_true]
  by_cases hc : REAL.lt (loopCycle L st.analysis).1 tol = true
  · rw [if_pos hc, if_pos hc]
  · rw [if_neg hc, if_neg hc, solverLoop_step]
    simp

theorem solverLoop_once_analysis (L : Library) (tol : REAL) (st : LoopState) :
    (solverLoop L tol 1 0 st).analysis = stateAfter L st.analysis 1 := by
  rw [solverLoop_once]
  by_cases hc : REAL.lt (loopCycle L st.analysis).1 tol = true
  · rw [if_pos hc]; rfl
  · rw [if_neg hc]; rfl

theorem solverLoop_once_stop (L : Library) (tol : REAL) (st : LoopState) :
    (solverLoop L tol 1 0 st).stop_criterion_Q =
      REAL.lt (L.Norm (residualVector L st.analysis 0)) tol := by
  rw [solverLoop_once]
  by_cases hc : REAL.lt (loopCycle L st.analysis).1 tol = true
  · rw [if_pos hc]
    exact hc.symm
  · rw [if_neg hc]
    simp only [Bool.not_eq_true] at hc
    exact hc.symm

theorem solverLoop_once_cout (L : Library) (tol : REAL) (st : LoopState) :
    (solverLoop L tol 1 0 st).cout =
      if REAL.lt (L.Norm (residualVector L st.analysis 0)) tol = true then
        st.cout ++ convergedLine (L.Norm (residualVector L st.analysis 0))
      else st.cout := by
  rw [solverLoop_once]
  by_cases hc : REAL.lt (loopCycle L st.analysis).1 tol = true
  · rw [if_pos hc, if_pos (by exact hc)]
    rfl
  · rw [if_neg hc, if_neg (by exact hc)]

theorem PostProcess_log (an : TPZAnalysis) :
    (PostProcess an).log = an.log ++ postProcessEntries an.Mesh.Dimension := by
  simp [PostProcess, postProcessEntries, TPZAnalysis.PostProcess, TPZAnalysis.DefineGraphMesh,
    TPZStack.Push]

theorem mainAnalysis_log (L : Library) :
    (mainAnalysis L).log =
      [AnCall.New true,
       AnCall.SetStructuralMatrix
         { fMesh := DeformationMesh (PrintGeometry (ReadGeometry L)) 2, fNumThreads := some 0 },
       AnCall.SetSolver { fDecompose := some DecomposeType.ELDLt }] := by
  simp [mainAnalysis, Analysis, TPZAnalysis.new, TPZAnalysis.SetStructuralMatrix,
    TPZAnalysis.SetSolver, TPZSkylineStructMatrix.SetNumThreads, TPZStepSolver.SetDirect]

theorem REAL.lt_irrefl (x : REAL) : REAL.lt x x = false := by
  cases x <;> simp [REAL.lt]

theorem lastNorm_append_post (l : List AnCall) (dim : Int) :
    lastNorm (l ++ postProcessEntries dim) = lastNorm l := by
  induction l with
  | nil => simp [postProcessEntries, lastNorm]
  | cons c l ih => simp [lastNorm, ih]

theorem main_log (L : Library) :
    (main L).analysis.log =
      (mainAnalysis L).log
        ++ cycleEntries L (loadVector L (mainAnalysis L) 0) (residualVector L (mainAnalysis L) 0)
        ++ postProcessEntries (stateAfter L (mainAnalysis L) 1).Mesh.Dimension := by
  rw [main_eq, mainWith_eq]
  simp only [PostProcess_log, solverLoop_once_analysis, stateAfter_log, cyclesLog,
    List.nil_append]

theorem main_stop (L : Library) :
    (main L).stop_criterion_Q = REAL.lt (L.Norm (residualVector L (mainAnalysis L) 0)) mainTol := by
  rw [main_eq, mainWith_eq]
  exact solverLoop_once_stop L mainTol _

theorem main_cout (L : Library) :
    (main L).cout =
      if REAL.lt (L.Norm (residualVector L (mainAnalysis L) 0)) mainTol = true then
        convergedLine (L.Norm (residualVector L (mainAnalysis L) 0)) ++ completeLine
      else completeLine := by
  rw [main_eq, mainWith_eq]
  simp only [solverLoop_once_cout, List.nil_append]
  split <;> rfl

theorem main_lastNorm (L : Library) :
    lastNorm (main L).analysis.log = some (L.Norm (residualVector L (mainAnalysis L) 0)) := by
  rw [main_log, lastNorm_append_post, lastNorm_append_cycle]

theorem toInt_toUnsigned (x : Int) (hlo : -2 ^ 31 ≤ x) (hhi : x < 2 ^ 31) :
    toInt (toUnsigned x) = x := by
  unfold toInt toUnsigned
  have h0 : (0 : Int) ≤ x % 2 ^ 32 := Int.emod_nonneg x (by norm_num)
  have h1 : x % 2 ^ 32 < 2 ^ 32 := Int.emod_lt_of_pos x (by norm_num)
  have hmod : (x % 2 ^ 32).toNat % 2 ^ 32 = (x % 2 ^ 32).toNat := by
    apply Nat.mod_eq_of_lt
    omega
  rw [hmod]
  split <;> omega

theorem DeformationMesh_materialIds (gmesh : TPZGeoMesh) (p_order : Int) :
    (DeformationMesh gmesh p_order).fMaterialVec.map TPZMaterial.Id = [1, 2, 3, 4, 5]
    ∧ (DeformationMesh gmesh p_order).fMaterialVec.map TPZMaterial.isElasticity
        = [true, false, false, false, false] := by
  simp [DeformationMesh, TPZCompMesh.new, TPZCompMesh.SetName,
    TPZCompMesh.SetDefaultOrder, TPZCompMesh.SetDimModel, TPZCompMesh.InsertMaterialObject,
    TPZCompMesh.SetAllCreateFunctionsContinuous, TPZCompMesh.AutoBuild,
    TPZMatElasticity2D.new, TPZMatElasticity2D.SetPlaneStrain, TPZMatElasticity2D.SetElasticity,
    TPZMatElasticity2D.CreateBC, TPZMaterial.Id, TPZMaterial.isElasticity, toInt]

theorem DeformationMesh_log (gmesh : TPZGeoMesh) (p_order : Int) :
    (DeformationMesh gmesh p_order).log =
      [CMeshCall.SetName "Porous Elasticity on wellbore ",
       CMeshCall.SetDefaultOrder p_order,
       CMeshCall.SetDimModel (toInt (toUnsigned gmesh.Dimension))]
      ++ (DeformationMesh gmesh p_order).fMaterialVec.map CMeshCall.InsertMaterialObject
      ++ [CMeshCall.SetAllCreateFunctionsContinuous, CMeshCall.AutoBuild] := by
  simp [DeformationMesh, TPZCompMesh.new, TPZCompMesh.SetName,
    TPZCompMesh.SetDefaultOrder, TPZCompMesh.SetDimModel, TPZCompMesh.InsertMaterialObject,
    TPZCompMesh.SetAllCreateFunctionsContinuous, TPZCompMesh.AutoBuild]

theorem insertedObjects_append (l1 l2 : List CMeshCall) :
    insertedObjects (l1 ++ l2) = insertedObjects l1 ++ insertedObjects l2 := by
  induction l1 with
  | nil => rfl
  | cons c l ih => cases c <;> simp [insertedObjects, ih]

theorem insertedObjects_map (ms : List TPZMaterial) :
    insertedObjects (ms.map CMeshCall.InsertMaterialObject) = ms := by
  induction ms with
  | nil => rfl
  | cons m ms ih => simp [insertedObjects, ih]

theorem countP_isAutoBuild_map (ms : List TPZMaterial) :
    (ms.map CMeshCall.InsertMaterialObject).countP CMeshCall.isAutoBuild = 0 := by
  induction ms with
  | nil => rfl
  | cons m ms ih => simp [List.countP_cons, CMeshCall.isAutoBuild, ih]

theorem DeformationMesh_inserted (gmesh : TPZGeoMesh) (p_order : Int) :
    insertedObjects (DeformationMesh gmesh p_order).log
      = (DeformationMesh gmesh p_order).fMaterialVec := by
  rw [DeformationMesh_log, insertedObjects_append, insertedObjects_append, insertedObjects_map]
  simp [insertedObjects]

theorem DeformationMesh_getLast (gmesh : TPZGeoMesh) (p_order : Int) :
    (DeformationMesh gmesh p_order).log.getLast? = some CMeshCall.AutoBuild := by
  have h : ∀ l : List CMeshCall,
      (l ++ [CMeshCall.SetAllCreateFunctionsContinuous, CMeshCall.AutoBuild]).getLast?
        = some CMeshCall.AutoBuild := by
    intro l
    rw [show l ++ [CMeshCall.SetAllCreateFunctionsContinuous, CMeshCall.AutoBuild]
        = (l ++ [CMeshCall.SetAllCreateFunctionsContinuous]) ++ [CMeshCall.AutoBuild] by simp,
      List.getLast?_concat]
  rw [DeformationMesh_log]
  exact h _

theorem stateAfter_sequenceLibrary (s : Nat → REAL) (a0 : TPZAnalysis) (k : Nat) :
    (stateAfter (sequenceLibrary s) a0 k).fRhs.fRow = a0.fRhs.fRow + k := by
  induction k with
  | zero => rfl
  | succ k ih =>
    have hstep : ∀ an : TPZAnalysis,
        (loopCycle (sequenceLibrary s) an).2.fRhs.fRow = an.fRhs.fRow + 1 := fun an => rfl
    rw [stateAfter, hstep, ih, Nat.add_assoc]

/-- Every sequence of residual norms is returned by some library: with
`sequenceLibrary s` the norm of pass `k` in a run of `main` is `s k`. -/
theorem residualNorm_sequenceLibrary (s : Nat → REAL) (k : Nat) :
    residualNorm (sequenceLibrary s) (mainAnalysis (sequenceLibrary s)) (k + 1) = s (k + 1) := by
  have h := stateAfter_sequenceLibrary s (mainAnalysis (sequenceLibrary s)) (k + 1)
  have h0 : (mainAnalysis (sequenceLibrary s)).fRhs.fRow = 0 := rfl
  rw [h0, Nat.zero_add] at h
  rw [residualNorm_eq]
  show s (residualVector (sequenceLibrary s) (mainAnalysis (sequenceLibrary s)) k).fRow = s (k + 1)
  rw [residualVector, h]

theorem cyclesLog_countRhsTimesAssign (L : Library) (a0 : TPZAnalysis) (k : Nat) :
    (cyclesLog L a0 k).countP AnCall.isRhsTimesAssign = k := by
  induction k with
  | zero => simp [cyclesLog]
  | succ k ih =>
    simp [cyclesLog, cycleEntries, List.countP_append, List.countP_cons, ih,
      AnCall.isRhsTimesAssign]

/-- A concrete pass: on `loadLibrary` the solver is invoked on `(-3)`, the
negation of the load vector `(3)`, and the norm is taken of the residual. -/
theorem solverLoop_loadLibrary_log :
    (solverLoop loadLibrary mainTol 1 0
        { analysis := mainAnalysis loadLibrary, stop_criterion_Q := false, cout := [] }).analysis.log
      = (mainAnalysis loadLibrary).log ++
          [AnCall.Assemble { fRow := 1, fCol := 1, fElem := [REAL.fin 3] },
           AnCall.RhsTimesAssign (-(REAL.fin 1)),
           AnCall.Solve { fRow := 1, fCol := 1, fElem := [REAL.fin (-3)] },
           AnCall.AssembleResidual { fRow := 1, fCol := 1, fElem := [REAL.fin 0] },
           AnCall.NormRhs { fRow := 1, fCol := 1, fElem := [REAL.fin 0] } (REAL.fin 0)] := by
  rw [solverLoop_once_analysis, stateAfter_log]
  simp [cyclesLog, cycleEntries, loadVector, residualVector, stateAfter, loopCycle,
    TPZAnalysis.NormRhs, TPZAnalysis.AssembleResidual, TPZAnalysis.Solve,
    TPZAnalysis.RhsTimesAssign, TPZAnalysis.Assemble, TPZFMatrix.timesAssign_negOne,
    TPZFMatrix.negated, REAL.neg, loadLibrary]

/-! ## The claims -/

/-- C1: with `n_it = 1` and `tol = 0.01`, whatever the library returns, the
loop of `main` runs exactly one cycle: the log of the analysis is the setup
entries, then `Assemble`, the multiplication of the right-hand side by `-1`,
`Solve`, `AssembleResidual` and one norm read, in that order, then the entries
of `PostProcess`.  `stop_criterion_Q` ends true exactly when that norm is
strictly below the tolerance; a norm equal to the tolerance leaves it false. -/
theorem main_one_cycle (L : Library) :
    (main L).analysis.log =
        (mainAnalysis L).log
          ++ [AnCall.Assemble (loadVector L (mainAnalysis L) 0),
              AnCall.RhsTimesAssign (-(REAL.fin 1)),
              AnCall.Solve (loadVector L (mainAnalysis L) 0).negated,
              AnCall.AssembleResidual (residualVector L (mainAnalysis L) 0),
              AnCall.NormRhs (residualVector L (mainAnalysis L) 0)
                (L.Norm (residualVector L (mainAnalysis L) 0))]
          ++ postProcessEntries (stateAfter L (mainAnalysis L) 1).Mesh.Dimension
    ∧ (main L).analysis.log.countP AnCall.isAssemble = 1
    ∧ (main L).analysis.log.countP AnCall.isSolve = 1
    ∧ (main L).analysis.log.countP AnCall.isAssembleResidual = 1
    ∧ ((main L).stop_criterion_Q = true ↔
        REAL.lt (L.Norm (residualVector L (mainAnalysis L) 0)) (REAL.fin (1 / 100)) = true)
    ∧ ((main L).stop_criterion_Q = false ↔
        REAL.lt (L.Norm (residualVector L (mainAnalysis L) 0)) (REAL.fin (1 / 100)) = false)
    ∧ REAL.lt (REAL.fin (1 / 100)) (REAL.fin (1 / 100)) = false := by
  have hlog : (main L).analysis.log =
        (mainAnalysis L).log
          ++ cycleEntries L (loadVector L (mainAnalysis L) 0) (residualVector L (mainAnalysis L) 0)
          ++ postProcessEntries (stateAfter L (mainAnalysis L) 1).Mesh.Dimension := by
    rw [main_eq, mainWith_eq]
    simp only [PostProcess_log, solverLoop_once_analysis, stateAfter_log, cyclesLog,
      List.nil_append]
  have hstop : (main L).stop_criterion_Q =
      REAL.lt (L.Norm (residualVector L (mainAnalysis L) 0)) (REAL.fin (1 / 100)) := by
    rw [main_eq, mainWith_eq]
    exact solverLoop_once_stop L mainTol _
  refine ⟨hlog, ?_, ?_, ?_, ?_, ?_, ?_⟩
  · rw [hlog, mainAnalysis_log]
    simp [cycleEntries, postProcessEntries, AnCall.isAssemble]
  · rw [hlog, mainAnalysis_log]
    simp [cycleEntries, postProcessEntries, AnCall.isSolve]
  · rw [hlog, mainAnalysis_log]
    simp [cycleEntries, postProcessEntries, AnCall.isAssembleResidual]
  · rw [hstop]
  · rw [hstop]
  · exact REAL.lt_irrefl _

/-- C2, as the code has it: `main` always ends with exit status 0; when the
loop converged it writes the line `Nonlinear process converged with residue
norm = ` followed by the final residual norm, and then `Execution complete.`;
when it did not, it writes `Execution complete.` only.  The convergence line is
in the output exactly when `stop_criterion_Q` ended true. -/
theorem main_output (L : Library) :
    (main L).exitStatus = 0
    ∧ lastNorm (main L).analysis.log = some (L.Norm (residualVector L (mainAnalysis L) 0))
    ∧ (main L).cout =
        (if (main L).stop_criterion_Q = true then
          [Out.str "Nonlinear process converged with residue norm = ",
           Out.real (L.Norm (residualVector L (mainAnalysis L) 0)), Out.endl,
           Out.str "Execution complete.", Out.endl]
        else [Out.str "Execution complete.", Out.endl])
    ∧ (Out.str "Nonlinear process converged with residue norm = " ∈ (main L).cout ↔
        (main L).stop_criterion_Q = true) := by
  refine ⟨rfl, main_lastNorm L, ?_, ?_⟩
  · rw [main_cout, main_stop]
    split <;> rfl
  · rw [main_cout, main_stop]
    split <;> rename_i hc
    · simp [hc, convergedLine, completeLine]
    · simp [hc, completeLine]

/-- C2 fails as stated: two runs whose final residual norms are 1 and 2, both
not below the tolerance, write the same output, the single line
`Execution complete.`; it carries no residual norm, no iteration count and no
statement that the loop did not converge. -/
theorem main_output_silent_when_not_converged :
    (main (fixedNormLibrary (REAL.fin 1))).stop_criterion_Q = false
    ∧ (main (fixedNormLibrary (REAL.fin 2))).stop_criterion_Q = false
    ∧ lastNorm (main (fixedNormLibrary (REAL.fin 1))).analysis.log = some (REAL.fin 1)
    ∧ lastNorm (main (fixedNormLibrary (REAL.fin 2))).analysis.log = some (REAL.fin 2)
    ∧ (main (fixedNormLibrary (REAL.fin 1))).cout = [Out.str "Execution complete.", Out.endl]
    ∧ (main (fixedNormLibrary (REAL.fin 2))).cout = [Out.str "Execution complete.", Out.endl] := by
  have h1 : REAL.lt (REAL.fin 1) mainTol = false := by
    simp only [REAL.lt, mainTol]; norm_num
  have h2 : REAL.lt (REAL.fin 2) mainTol = false := by
    simp only [REAL.lt, mainTol]; norm_num
  refine ⟨?_, ?_, ?_, ?_, ?_, ?_⟩
  · rw [main_stop]; exact h1
  · rw [main_stop]; exact h2
  · rw [main_lastNorm]; rfl
  · rw [main_lastNorm]; rfl
  · rw [main_cout]
    have : REAL.lt ((fixedNormLibrary (REAL.fin 1)).Norm
        (residualVector (fixedNormLibrary (REAL.fin 1))
          (mainAnalysis (fixedNormLibrary (REAL.fin 1))) 0)) mainTol = false := h1
    simp [this, completeLine]
  · rw [main_cout]
    have : REAL.lt ((fixedNormLibrary (REAL.fin 2)).Norm
        (residualVector (fixedNormLibrary (REAL.fin 2))
          (mainAnalysis (fixedNormLibrary (REAL.fin 2))) 0)) mainTol = false := h2
    simp [this, completeLine]

/-- C3: for every geometry and order, the entities `DeformationMesh` inserts
are, in order, the plane strain material with tag 1, `E = 29269`, `nu = 0.203`,
and four boundary conditions attached to it with a zero 2x2 matrix: tag 2 of
type 5 with value `(-10, 0)`, tag 3 of type 5, tag 4 of type 7 and tag 5 of
type 8, the last three with value `(0, 0)`. -/
theorem DeformationMesh_inserts_model (gmesh : TPZGeoMesh) (p_order : Int) :
    insertedObjects (DeformationMesh gmesh p_order).log =
      [ TPZMaterial.elasticity
          { fId := 1, fPlaneMode := some PlaneMode.PlaneStrain,
            fE := some (REAL.fin 29269), fnu := some (REAL.fin (203 / 1000)) },
        TPZMaterial.bndCond
          { fMaterial := { fId := 1, fPlaneMode := some PlaneMode.PlaneStrain,
                           fE := some (REAL.fin 29269), fnu := some (REAL.fin (203 / 1000)) },
            fId := 2, fType := 5,
            fBCVal1 := { fRow := 2, fCol := 2,
                         fElem := [REAL.fin 0, REAL.fin 0, REAL.fin 0, REAL.fin 0] },
            fBCVal2 := { fRow := 2, fCol := 1, fElem := [REAL.fin (-10), REAL.fin 0] } },
        TPZMaterial.bndCond
          { fMaterial := { fId := 1, fPlaneMode := some PlaneMode.PlaneStrain,
                           fE := some (REAL.fin 29269), fnu := some (REAL.fin (203 / 1000)) },
            fId := 3, fType := 5,
            fBCVal1 := { fRow := 2, fCol := 2,
                         fElem := [REAL.fin 0, REAL.fin 0, REAL.fin 0, REAL.fin 0] },
            fBCVal2 := { fRow := 2, fCol := 1, fElem := [REAL.fin 0, REAL.fin 0] } },
        TPZMaterial.bndCond
          { fMaterial := { fId := 1, fPlaneMode := some PlaneMode.PlaneStrain,
                           fE := some (REAL.fin 29269), fnu := some (REAL.fin (203 / 1000)) },
            fId := 4, fType := 7,
            fBCVal1 := { fRow := 2, fCol := 2,
                         fElem := [REAL.fin 0, REAL.fin 0, REAL.fin 0, REAL.fin 0] },
            fBCVal2 := { fRow := 2, fCol := 1, fElem := [REAL.fin 0, REAL.fin 0] } },
        TPZMaterial.bndCond
          { fMaterial := { fId := 1, fPlaneMode := some PlaneMode.PlaneStrain,
                           fE := some (REAL.fin 29269), fnu := some (REAL.fin (203 / 1000)) },
            fId := 5, fType := 8,
            fBCVal1 := { fRow := 2, fCol := 2,
                         fElem := [REAL.fin 0, REAL.fin 0, REAL.fin 0, REAL.fin 0] },
            fBCVal2 := { fRow := 2, fCol := 1, fElem := [REAL.fin 0, REAL.fin 0] } } ]
      ∧ (DeformationMesh gmesh p_order).fMaterialVec
          = insertedObjects (DeformationMesh gmesh p_order).log := by
  simp [DeformationMesh, insertedObjects, TPZCompMesh.new, TPZCompMesh.SetName,
    TPZCompMesh.SetDefaultOrder, TPZCompMesh.SetDimModel, TPZCompMesh.InsertMaterialObject,
    TPZCompMesh.SetAllCreateFunctionsContinuous, TPZCompMesh.AutoBuild,
    TPZMatElasticity2D.new, TPZMatElasticity2D.SetPlaneStrain, TPZMatElasticity2D.SetElasticity,
    TPZMatElasticity2D.CreateBC, TPZFMatrix.new, TPZFMatrix.put, REAL.mul_one, REAL.neg_def,
    REAL.neg, toInt]

/-- C4, as the code has it: `DeformationMesh` does not validate the order.
For every `p_order`, below 1 or not, it never fails with `InvalidOrderError`:
it hands `p_order` unchanged to `SetDefaultOrder`, goes on to `AutoBuild` and
returns the mesh. -/
theorem DeformationMesh_no_order_check (gmesh : TPZGeoMesh) (p_order : Int) :
    DeformationMesh_outcome gmesh p_order ≠ Except.error BuildError.InvalidOrderError
    ∧ DeformationMesh_outcome gmesh p_order = Except.ok (DeformationMesh gmesh p_order)
    ∧ CMeshCall.SetDefaultOrder p_order ∈ (DeformationMesh gmesh p_order).log
    ∧ (DeformationMesh gmesh p_order).log.getLast? = some CMeshCall.AutoBuild := by
  refine ⟨?_, rfl, ?_, DeformationMesh_getLast gmesh p_order⟩
  · simp [DeformationMesh_outcome]
  · rw [DeformationMesh_log]; simp

/-- C4 fails as stated: with `p_order = 0`, which is below 1, `DeformationMesh`
does not fail with `InvalidOrderError`; it sets the default order 0, runs
`AutoBuild` and returns a mesh. -/
theorem DeformationMesh_accepts_order_zero :
    (0 : Int) < 1
    ∧ DeformationMesh_outcome sampleGeoMesh 0 ≠ Except.error BuildError.InvalidOrderError
    ∧ ∃ c : TPZCompMesh, DeformationMesh_outcome sampleGeoMesh 0 = Except.ok c
        ∧ CMeshCall.SetDefaultOrder 0 ∈ c.log
        ∧ c.log.getLast? = some CMeshCall.AutoBuild := by
  refine ⟨by decide, ?_, DeformationMesh sampleGeoMesh 0, rfl, ?_,
    DeformationMesh_getLast sampleGeoMesh 0⟩
  · simp [DeformationMesh_outcome]
  · rw [DeformationMesh_log]; simp

/-- C5: `PostProcess` first defines the graph mesh with the dimension of the
analysis mesh, the scalar fields `SigmaX`, `SigmaY`, `SigmaZ` in that order,
the single vector field `Displacement` and the file `Wellbore.vtk`, and then
post-processes at subdivision level 0; these are the only two calls it makes
and no other field name is requested. -/
theorem PostProcess_requests (an : TPZAnalysis) :
    (PostProcess an).log =
        an.log ++
          [AnCall.DefineGraphMesh
             { dim := an.Mesh.Dimension, scalnames := ["SigmaX", "SigmaY", "SigmaZ"],
               vecnames := ["Displacement"], plotfile := "Wellbore.vtk" },
           AnCall.PostProcess 0]
    ∧ (PostProcess an).fGraphMesh =
        some { dim := an.fCompMesh.fDimModel, scalnames := ["SigmaX", "SigmaY", "SigmaZ"],
               vecnames := ["Displacement"], plotfile := "Wellbore.vtk" } := by
  constructor
  · exact PostProcess_log an
  · simp [PostProcess, TPZAnalysis.PostProcess, TPZAnalysis.DefineGraphMesh, TPZStack.Push,
      TPZAnalysis.Mesh, TPZCompMesh.Dimension]

/-- C6: whatever the residual norm, `main` calls `PostProcess` once, after the
loop, on the analysis left by the cycle (the same object whether or not the
loop converged), and returns 0: the log ends with the two entries of
`PostProcess`, and it holds exactly one `PostProcess` entry. -/
theorem main_postprocess_always (L : Library) :
    (main L).exitStatus = 0
    ∧ (solverLoop L (REAL.fin (1 / 100)) 1 0
        { analysis := mainAnalysis L, stop_criterion_Q := false, cout := [] }).analysis
        = stateAfter L (mainAnalysis L) 1
    ∧ (main L).analysis = PostProcess (stateAfter L (mainAnalysis L) 1)
    ∧ (main L).analysis.log =
        (stateAfter L (mainAnalysis L) 1).log
          ++ [AnCall.DefineGraphMesh
                { dim := (stateAfter L (mainAnalysis L) 1).Mesh.Dimension,
                  scalnames := ["SigmaX", "SigmaY", "SigmaZ"],
                  vecnames := ["Displacement"], plotfile := "Wellbore.vtk" },
              AnCall.PostProcess 0]
    ∧ (stateAfter L (mainAnalysis L) 1).log.getLast? =
        some (AnCall.NormRhs (residualVector L (mainAnalysis L) 0)
          (L.Norm (residualVector L (mainAnalysis L) 0)))
    ∧ (stateAfter L (mainAnalysis L) 1).log.countP AnCall.isPostProcess = 0
    ∧ (main L).analysis.log.countP AnCall.isPostProcess = 1 := by
  have han : (main L).analysis = PostProcess (stateAfter L (mainAnalysis L) 1) := by
    rw [main_eq, mainWith_eq]
    simp only [solverLoop_once_analysis]
  have hcyc : (stateAfter L (mainAnalysis L) 1).log =
      (mainAnalysis L).log ++ cycleEntries L (loadVector L (mainAnalysis L) 0)
        (residualVector L (mainAnalysis L) 0) := by
    simp [stateAfter_log, cyclesLog]
  refine ⟨rfl, solverLoop_once_analysis L _ _, han, ?_, ?_, ?_, ?_⟩
  · rw [han, PostProcess_log]; rfl
  · rw [hcyc]; simp [cycleEntries]
  · rw [hcyc, mainAnalysis_log]; simp [cycleEntries, AnCall.isPostProcess]
  · rw [han, PostProcess_log, hcyc, mainAnalysis_log]
    simp [cycleEntries, postProcessEntries, AnCall.isPostProcess]

/-- C7: the tags `DeformationMesh` registers are 1, 2, 3, 4, 5 in that order,
pairwise distinct; tag 1 is the only material law and each of the tags 2, 3,
4, 5 belongs to exactly one boundary condition; so a checked registration of
the same sequence never meets `DuplicateRegionError`. -/
theorem DeformationMesh_tags_distinct (gmesh : TPZGeoMesh) (p_order : Int) :
    (insertedObjects (DeformationMesh gmesh p_order).log).map TPZMaterial.Id = [1, 2, 3, 4, 5]
    ∧ ((insertedObjects (DeformationMesh gmesh p_order).log).map TPZMaterial.Id).Nodup
    ∧ (insertedObjects (DeformationMesh gmesh p_order).log).countP TPZMaterial.isElasticity = 1
    ∧ (insertedObjects (DeformationMesh gmesh p_order).log).countP
        (fun m => m.isElasticity && decide (m.Id = 1)) = 1
    ∧ (insertedObjects (DeformationMesh gmesh p_order).log).countP
        (fun m => m.isBndCond && decide (m.Id = 2)) = 1
    ∧ (insertedObjects (DeformationMesh gmesh p_order).log).countP
        (fun m => m.isBndCond && decide (m.Id = 3)) = 1
    ∧ (insertedObjects (DeformationMesh gmesh p_order).log).countP
        (fun m => m.isBndCond && decide (m.Id = 4)) = 1
    ∧ (insertedObjects (DeformationMesh gmesh p_order).log).countP
        (fun m => m.isBndCond && decide (m.Id = 5)) = 1
    ∧ registerAllChecked [] (insertedObjects (DeformationMesh gmesh p_order).log)
        = Except.ok (insertedObjects (DeformationMesh gmesh p_order).log) := by
  rw [DeformationMesh_inserted]
  simp [DeformationMesh, TPZCompMesh.new, TPZCompMesh.SetName,
    TPZCompMesh.SetDefaultOrder, TPZCompMesh.SetDimModel, TPZCompMesh.InsertMaterialObject,
    TPZCompMesh.SetAllCreateFunctionsContinuous, TPZCompMesh.AutoBuild,
    TPZMatElasticity2D.new, TPZMatElasticity2D.SetPlaneStrain, TPZMatElasticity2D.SetElasticity,
    TPZMatElasticity2D.CreateBC, TPZMaterial.Id, TPZMaterial.isElasticity,
    TPZMaterial.isBndCond, toInt, registerAllChecked, registerChecked, List.countP_cons]

/-- C8: in every pass through the loop, for every budget and tolerance, the
right-hand side `Solve` is invoked with is the entrywise negation of the load
vector `Assemble` left in that pass (one multiplication by `-1`, between
`Assemble` and `Solve`), and the norm compared with the tolerance is that of
the vector `AssembleResidual` left afterwards.  The loop entered at counter
`i` runs `k` passes and adds to the log exactly `k` blocks
`Assemble b, Rhs *= -1, Solve (-b), AssembleResidual r, Norm r`, hence `k`
multiplications by `-1`.  If the loop test fails at once, `k = 0` and nothing
changes; otherwise `k >= 1`, every pass before the last found `Norm r < tol`
false, the flag is `Norm r < tol` for the residual `r` of the last pass, and
the last pass is the one that converged or the one that used up the budget. -/
theorem solverLoop_sign_correction (L : Library) (tol : REAL) (n_it i : Int) (st : LoopState) :
    ∃ k : Nat,
      (solverLoop L tol n_it i st).analysis = stateAfter L st.analysis k
      ∧ (solverLoop L tol n_it i st).analysis.log = st.analysis.log ++ cyclesLog L st.analysis k
      ∧ (cyclesLog L st.analysis k).countP AnCall.isRhsTimesAssign = k
      ∧ ((¬ i < n_it ∧ k = 0 ∧ solverLoop L tol n_it i st = st)
          ∨ (i < n_it ∧ ∃ j : Nat, k = j + 1 ∧ i + (k : Int) ≤ n_it
              ∧ cyclesLog L st.analysis k =
                  cyclesLog L st.analysis j ++
                    [AnCall.Assemble (loadVector L st.analysis j),
                     AnCall.RhsTimesAssign (-(REAL.fin 1)),
                     AnCall.Solve (loadVector L st.analysis j).negated,
                     AnCall.AssembleResidual (residualVector L st.analysis j),
                     AnCall.NormRhs (residualVector L st.analysis j)
                       (L.Norm (residualVector L st.analysis j))]
              ∧ (∀ m : Nat, m < j →
                  REAL.lt (L.Norm (residualVector L st.analysis m)) tol = false)
              ∧ (solverLoop L tol n_it i st).stop_criterion_Q =
                  REAL.lt (L.Norm (residualVector L st.analysis j)) tol
              ∧ ((solverLoop L tol n_it i st).stop_criterion_Q = true
                  ∨ i + (k : Int) = n_it))) := by
  rcases solverLoop_run L tol n_it (n_it - i).toNat i st rfl with
    ⟨k, hk1, hkn, hlt, hmin, hres⟩ | ⟨hall, hres⟩
  · obtain ⟨j, rfl⟩ : ∃ j, k = j + 1 := ⟨k - 1, by omega⟩
    refine ⟨j + 1, by rw [hres], by rw [hres]; exact stateAfter_log L _ _,
      cyclesLog_countRhsTimesAssign L _ _,
      Or.inr ⟨by omega, j, rfl, hkn, rfl, ?_, ?_, Or.inl (by rw [hres])⟩⟩
    · intro m hm
      rw [← residualNorm_eq]
      exact hmin (m + 1) (by omega) (by omega)
    · rw [hres, ← residualNorm_eq]
      exact hlt.symm
  · by_cases hi : i < n_it
    · rw [if_pos hi] at hres
      obtain ⟨j, hj⟩ : ∃ j, (n_it - i).toNat = j + 1 := ⟨(n_it - i).toNat - 1, by omega⟩
      refine ⟨j + 1, by rw [hres, hj], by rw [hres, hj]; exact stateAfter_log L _ _,
        cyclesLog_countRhsTimesAssign L _ _,
        Or.inr ⟨hi, j, rfl, by omega, rfl, ?_, ?_, Or.inr (by omega)⟩⟩
      · intro m hm
        rw [← residualNorm_eq]
        exact hall (m + 1) (by omega) (by omega)
      · rw [hres, ← residualNorm_eq]
        exact (hall (j + 1) (by omega) (by omega)).symm
    · rw [if_neg hi] at hres
      exact ⟨0, by rw [hres]; rfl, by rw [hres]; simp [cyclesLog], rfl,
        Or.inl ⟨hi, rfl, hres⟩⟩

/-- C9: the log of the mesh `DeformationMesh` returns is: `SetName`,
`SetDefaultOrder p_order`, `SetDimModel` with the dimension read from the
geometry (through the `unsigned int` variable `dim`), the five
`InsertMaterialObject` calls (the material, then the four boundary
conditions), `SetAllCreateFunctionsContinuous`, and last the one `AutoBuild`
call.  So every registration precedes `AutoBuild` and nothing follows it. -/
theorem DeformationMesh_registers_before_build (gmesh : TPZGeoMesh) (p_order : Int) :
    (DeformationMesh gmesh p_order).log =
        [CMeshCall.SetName "Porous Elasticity on wellbore ",
         CMeshCall.SetDefaultOrder p_order,
         CMeshCall.SetDimModel (toInt (toUnsigned gmesh.Dimension))]
        ++ (DeformationMesh gmesh p_order).fMaterialVec.map CMeshCall.InsertMaterialObject
        ++ [CMeshCall.SetAllCreateFunctionsContinuous, CMeshCall.AutoBuild]
    ∧ (DeformationMesh gmesh p_order).fMaterialVec.map TPZMaterial.Id = [1, 2, 3, 4, 5]
    ∧ (DeformationMesh gmesh p_order).fMaterialVec.map TPZMaterial.isElasticity
        = [true, false, false, false, false]
    ∧ (DeformationMesh gmesh p_order).log.countP CMeshCall.isInsert = 5
    ∧ (DeformationMesh gmesh p_order).log.countP CMeshCall.isAutoBuild = 1
    ∧ (DeformationMesh gmesh p_order).log.getLast? = some CMeshCall.AutoBuild
    ∧ (DeformationMesh gmesh p_order).fDimModel = toInt (toUnsigned gmesh.Dimension) := by
  refine ⟨DeformationMesh_log gmesh p_order, (DeformationMesh_materialIds gmesh p_order).1,
    (DeformationMesh_materialIds gmesh p_order).2, ?_, ?_, ?_, ?_⟩
  · simp [DeformationMesh, TPZCompMesh.new, TPZCompMesh.SetName,
      TPZCompMesh.SetDefaultOrder, TPZCompMesh.SetDimModel, TPZCompMesh.InsertMaterialObject,
      TPZCompMesh.SetAllCreateFunctionsContinuous, TPZCompMesh.AutoBuild, CMeshCall.isInsert,
      List.countP_cons]
  · rw [DeformationMesh_log]
    simp [List.countP_append, countP_isAutoBuild_map, List.countP_cons, CMeshCall.isAutoBuild]
  · exact DeformationMesh_getLast gmesh p_order
  · simp [DeformationMesh, TPZCompMesh.new, TPZCompMesh.SetName,
      TPZCompMesh.SetDefaultOrder, TPZCompMesh.SetDimModel, TPZCompMesh.InsertMaterialObject,
      TPZCompMesh.SetAllCreateFunctionsContinuous, TPZCompMesh.AutoBuild]

/-- C10: for every budget `n_it >= 0`, tolerance and library, the loop started
with the flag false ends after exactly `k` cycles, where `k` is the least index
`1 <= k <= n_it` with `r_k < tol` if there is one (the flag then ends true) and
`k = n_it` otherwise (the flag then ends false); the loop adds exactly `k`
`Assemble`, `k` `Solve` and `k` `AssembleResidual` calls. -/
theorem solverLoop_cycle_count (L : Library) (tol : REAL) (n_it : Int) (h : 0 ≤ n_it)
    (a0 : TPZAnalysis) (c0 : List Out) :
    ∃ k : Nat,
      ((1 ≤ k ∧ (k : Int) ≤ n_it ∧ REAL.lt (residualNorm L a0 k) tol = true
          ∧ (∀ j : Nat, 1 ≤ j → j < k → REAL.lt (residualNorm L a0 j) tol = false)
          ∧ (solverLoop L tol n_it 0
              { analysis := a0, stop_criterion_Q := false, cout := c0 }).stop_criterion_Q = true)
        ∨ ((k : Int) = n_it
          ∧ (∀ j : Nat, 1 ≤ j → (j : Int) ≤ n_it → REAL.lt (residualNorm L a0 j) tol = false)
          ∧ (solverLoop L tol n_it 0
              { analysis := a0, stop_criterion_Q := false, cout := c0 }).stop_criterion_Q = false))
      ∧ (solverLoop L tol n_it 0
          { analysis := a0, stop_criterion_Q := false, cout := c0 }).analysis = stateAfter L a0 k
      ∧ (newEntries a0.log (solverLoop L tol n_it 0
          { analysis := a0, stop_criterion_Q := false, cout := c0 }).analysis.log).countP
            AnCall.isAssemble = k
      ∧ (newEntries a0.log (solverLoop L tol n_it 0
          { analysis := a0, stop_criterion_Q := false, cout := c0 }).analysis.log).countP
            AnCall.isSolve = k
      ∧ (newEntries a0.log (solverLoop L tol n_it 0
          { analysis := a0, stop_criterion_Q := false, cout := c0 }).analysis.log).countP
            AnCall.isAssembleResidual = k := by
  have hnew : ∀ k, newEntries a0.log (stateAfter L a0 k).log = cyclesLog L a0 k := by
    intro k
    simp [newEntries, stateAfter_log]
  obtain ⟨hA, hS, hR, _⟩ : _ ∧ _ ∧ _ ∧ _ := ⟨fun k => (cyclesLog_counts L a0 k).1,
    fun k => (cyclesLog_counts L a0 k).2.1, fun k => (cyclesLog_counts L a0 k).2.2.1, trivial⟩
  rcases solverLoop_run L tol n_it (n_it - 0).toNat 0
      { analysis := a0, stop_criterion_Q := false, cout := c0 } rfl with
    ⟨k, hk1, hkn, hlt, hmin, hres⟩ | ⟨hall, hres⟩
  · refine ⟨k, Or.inl ⟨hk1, by omega, hlt, hmin, by rw [hres]⟩, by rw [hres], ?_, ?_, ?_⟩
    · rw [hres]; simp only [hnew, hA]
    · rw [hres]; simp only [hnew, hS]
    · rw [hres]; simp only [hnew, hR]
  · have hall2 : ∀ j : Nat, 1 ≤ j → (j : Int) ≤ n_it →
        REAL.lt (residualNorm L a0 j) tol = false := fun j h1 h2 => hall j h1 (by omega)
    by_cases hi : (0 : Int) < n_it
    · rw [if_pos hi] at hres
      refine ⟨(n_it - 0).toNat, Or.inr ⟨by omega, hall2, by rw [hres]⟩, by rw [hres], ?_, ?_, ?_⟩
      · rw [hres]; simp only [hnew, hA]
      · rw [hres]; simp only [hnew, hS]
      · rw [hres]; simp only [hnew, hR]
    · rw [if_neg hi] at hres
      refine ⟨0, Or.inr ⟨by omega, hall2, by rw [hres]⟩, by rw [hres]; rfl, ?_, ?_, ?_⟩
      · rw [hres]; simp [newEntries]
      · rw [hres]; simp [newEntries]
      · rw [hres]; simp [newEntries]

/-- A run of `solverLoop_cycle_count` with budget 3 on the stand-in library
whose norms are all 1. -/
theorem solverLoop_cycle_count_witness :
    (0 : Int) ≤ 3 ∧
    ∃ k : Nat,
      ((1 ≤ k ∧ (k : Int) ≤ 3
          ∧ REAL.lt (residualNorm (fixedNormLibrary (REAL.fin 1))
              (mainAnalysis (fixedNormLibrary (REAL.fin 1))) k) (REAL.fin (1 / 100)) = true
          ∧ (∀ j : Nat, 1 ≤ j → j < k →
              REAL.lt (residualNorm (fixedNormLibrary (REAL.fin 1))
                (mainAnalysis (fixedNormLibrary (REAL.fin 1))) j) (REAL.fin (1 / 100)) = false)
          ∧ (solverLoop (fixedNormLibrary (REAL.fin 1)) (REAL.fin (1 / 100)) 3 0
              { analysis := mainAnalysis (fixedNormLibrary (REAL.fin 1)),
                stop_criterion_Q := false, cout := [] }).stop_criterion_Q = true)
        ∨ ((k : Int) = 3
          ∧ (∀ j : Nat, 1 ≤ j → (j : Int) ≤ 3 →
              REAL.lt (residualNorm (fixedNormLibrary (REAL.fin 1))
                (mainAnalysis (fixedNormLibrary (REAL.fin 1))) j) (REAL.fin (1 / 100)) = false)
          ∧ (solverLoop (fixedNormLibrary (REAL.fin 1)) (REAL.fin (1 / 100)) 3 0
              { analysis := mainAnalysis (fixedNormLibrary (REAL.fin 1)),
                stop_criterion_Q := false, cout := [] }).stop_criterion_Q = false))
      ∧ (solverLoop (fixedNormLibrary (REAL.fin 1)) (REAL.fin (1 / 100)) 3 0
          { analysis := mainAnalysis (fixedNormLibrary (REAL.fin 1)),
            stop_criterion_Q := false, cout := [] }).analysis
          = stateAfter (fixedNormLibrary (REAL.fin 1))
              (mainAnalysis (fixedNormLibrary (REAL.fin 1))) k
      ∧ (newEntries (mainAnalysis (fixedNormLibrary (REAL.fin 1))).log
          (solverLoop (fixedNormLibrary (REAL.fin 1)) (REAL.fin (1 / 100)) 3 0
            { analysis := mainAnalysis (fixedNormLibrary (REAL.fin 1)),
              stop_criterion_Q := false, cout := [] }).analysis.log).countP
            AnCall.isAssemble = k
      ∧ (newEntries (mainAnalysis (fixedNormLibrary (REAL.fin 1))).log
          (solverLoop (fixedNormLibrary (REAL.fin 1)) (REAL.fin (1 / 100)) 3 0
            { analysis := mainAnalysis (fixedNormLibrary (REAL.fin 1)),
              stop_criterion_Q := false, cout := [] }).analysis.log).countP
            AnCall.isSolve = k
      ∧ (newEntries (mainAnalysis (fixedNormLibrary (REAL.fin 1))).log
          (solverLoop (fixedNormLibrary (REAL.fin 1)) (REAL.fin (1 / 100)) 3 0
            { analysis := mainAnalysis (fixedNormLibrary (REAL.fin 1)),
              stop_criterion_Q := false, cout := [] }).analysis.log).countP
            AnCall.isAssembleResidual = k :=
  ⟨by decide,
   solverLoop_cycle_count (fixedNormLibrary (REAL.fin 1)) (REAL.fin (1 / 100)) 3 (by decide)
     (mainAnalysis (fixedNormLibrary (REAL.fin 1))) []⟩

end PorousElasticity
